import Mathlib

/-!
Shallow embedding of src/tool/StateMachine.hpp (Lecrapouille/Statecharts):
the generic FSM engine `StateMachine<FSM, STATES_ID>`, its transition
algorithm `StateMachine::transition(STATES_ID, const Transition*)`
(lines 277-411), the table overload `transition(Transitions const&)`
(lines 241-252), `reset()` (lines 203-208) and `state()` (lines 213-216).

Modelling choices, each justified by the source:
* `STATES_ID` is a C++ enumeration; we embed its value space as `Nat`.  The
  three mandatory sentinel enumerators `IGNORING_EVENT`, `CANNOT_HAPPEN`,
  `MAX_STATES` are fields of a configuration record `Cfg` (each concrete FSM
  fixes them once in its enumeration).
* Callbacks (`bFuncPtr` / `xFuncPtr`) are member functions of the derived
  FSM object.  We model the data owned by the derived object as a value of
  an arbitrary type `D`, and a callback as a function from `D` to the new
  `D` together with the list of internal `transition(s)` calls it performs,
  in order.  Inside `transition` every callback runs between line 338
  (`m_nesting = true`) and line 404 (`m_nesting = false`), so each such
  internal call takes the early-return path of lines 290-300: it only
  stores its argument into `m_nesting_state` and returns.  `nestedCall`
  below is exactly that path, and applying a callback folds it over the
  emitted request list.
* The two `exit(EXIT_FAILURE)` calls (lines 311 and 325) and the undefined
  behaviour of evaluating `tr->guard` at line 339 when `tr == nullptr` are
  embedded as abnormal terminal statuses of the evaluation.
* The C++ do/while loop can diverge (a callback may request a fresh
  transition forever), so the loop takes explicit fuel; exhausting it
  yields the `timeout` status, which no theorem below identifies with a
  real return.
* Each run also returns the list of host callbacks the engine invoked, in
  invocation order (`Ev` events), mirroring what call-count and ordering
  instrumentation of the real callbacks would record.
* The `THREAD_SAFETY` mutex block is compiled out by default and touches no
  field used below; `LOGD` / `LOGE` are logging only.  Both are omitted.
-/

namespace Statecharts

/-- State identifiers: the value space of the `STATES_ID` enumeration. -/
abbrev StateId := Nat

/-- The three mandatory sentinel enumerators of a concrete `STATES_ID`
(header lines 114-123). -/
structure Cfg where
  MAX_STATES : Nat
  IGNORING_EVENT : StateId
  CANNOT_HAPPEN : StateId

/-- A `void (FSM::*)()` callback: transforms the data of the derived FSM
and performs a list of internal `transition(s)` calls, in order. -/
abbrev Cb (D : Type) := D → D × List StateId

/-- A `bool (FSM::*)()` guard callback: like `Cb` but also returns the
boolean guard verdict. -/
abbrev GuardCb (D : Type) := D → D × List StateId × Bool

/-- `StateMachine::State` (lines 143-162): the three optional action
handles of a state. -/
structure State (D : Type) where
  entering : Option (Cb D) := none
  leaving : Option (Cb D) := none
  onevent : Option (Cb D) := none

/-- `StateMachine::Transition` (lines 169-179): destination state, optional
guard, optional transition action. -/
structure Transition (D : Type) where
  destination : StateId
  guard : Option (GuardCb D) := none
  action : Option (Cb D) := none

/-- The engine fields (lines 256-272) plus the data `fsm` owned by the
derived FSM object (the object `reinterpret_cast<FSM*>(this)` points to).
`m_states` is the `std::array<State, MAX_STATES>` viewed as a total map;
the engine only ever indexes it below `MAX_STATES`. -/
structure StateMachine (D : Type) where
  m_states : StateId → State D
  m_current_state : StateId
  m_initial_state : StateId
  m_next_state : StateId
  m_nesting_state : StateId
  m_nesting : Bool
  fsm : D

/-- Host callbacks the engine invokes, in invocation order. -/
inductive Ev where
  | guard : Ev
  | action : Ev
  | leaving : StateId → Ev
  | entering : StateId → Ev
  | onevent : StateId → Ev
deriving DecidableEq

/-- How an evaluation of `transition` ended. -/
inductive Status where
  /-- A `return` statement was reached. -/
  | ok : Status
  /-- `exit(EXIT_FAILURE)` at line 311: destination is `CANNOT_HAPPEN`. -/
  | fatal_forbidden : Status
  /-- `exit(EXIT_FAILURE)` at line 325: destination is `>= MAX_STATES`. -/
  | fatal_unknown : Status
  /-- Undefined behaviour: line 339 evaluates `tr->guard` while
  `tr == nullptr`. -/
  | null_deref : Status
  /-- The do/while loop ran out of fuel (models divergence). -/
  | timeout : Status
deriving DecidableEq

/-- Result of an evaluation: the machine at the moment the evaluation
ended, the callbacks invoked (in order), and how it ended. -/
structure TResult (D : Type) where
  machine : StateMachine D
  trace : List Ev
  status : Status

/-- Lines 290-300 executed while `m_nesting` is true: an internal
`transition(s)` call made from inside a callback stores `s` into
`m_nesting_state` and returns at line 299. -/
def nestedCall (m : StateMachine D) (s : StateId) : StateMachine D :=
  { m with m_nesting_state := s }

/-- Run a `void` callback: update the FSM data, then perform its internal
`transition` calls in order (each one is a `nestedCall`, see above). -/
def applyCb (m : StateMachine D) (f : Cb D) : StateMachine D :=
  (f m.fsm).2.foldl nestedCall { m with fsm := (f m.fsm).1 }

/-- Run a guard callback; also yields the guard verdict. -/
def applyGuard (m : StateMachine D) (g : GuardCb D) : StateMachine D × Bool :=
  ((g m.fsm).2.1.foldl nestedCall { m with fsm := (g m.fsm).1 },
   (g m.fsm).2.2)

/-- Outcome of one iteration of the do/while body (lines 302-405): either a
`return` or `exit` was reached (`done`), or control fell through to the
`while` condition with the given machine and invoked callbacks (`more`). -/
inductive StepOut (D : Type) where
  | done : TResult D → StepOut D
  | more : StateMachine D → List Ev → StepOut D

/-- One iteration of the do/while body of
`StateMachine::transition(STATES_ID, const Transition*)`, lines 302-405,
translated statement by statement.  `tr` is the `tr` parameter, unchanged
across iterations (the loop never rebinds it). -/
def stepIter (cfg : Cfg) (tr : Option (Transition D)) (m0 : StateMachine D) :
    StepOut D :=
  -- m_next_state = m_nesting_state; m_nesting_state = CANNOT_HAPPEN;
  let m := { m0 with m_next_state := m0.m_nesting_state,
                     m_nesting_state := cfg.CANNOT_HAPPEN }
  -- Forbidden event: kill the system (line 311)
  if m.m_next_state = cfg.CANNOT_HAPPEN then
    .done ⟨m, [], .fatal_forbidden⟩
  -- Do not react to this event (line 318)
  else if m.m_next_state = cfg.IGNORING_EVENT then
    .done ⟨m, [], .ok⟩
  -- Unknown state: kill the system (line 325)
  else if cfg.MAX_STATES ≤ m.m_next_state then
    .done ⟨m, [], .fatal_unknown⟩
  else
    -- STATES_ID current_state = m_current_state;
    -- m_current_state = m_next_state;
    let current_state := m.m_current_state
    let m := { m with m_current_state := m.m_next_state }
    let nst := m.m_states m.m_next_state
    let cst := m.m_states current_state
    -- m_nesting = true;  (line 338)
    let m := { m with m_nesting := true }
    match tr with
    | none =>
        -- bool guard_res = (tr->guard == nullptr);
        -- with tr == nullptr this dereferences a null pointer (line 339)
        .done ⟨m, [], .null_deref⟩
    | some t =>
        -- bool guard_res = (tr->guard == nullptr);
        -- if (!guard_res) guard_res = (this->*tr->guard)();
        let gr : StateMachine D × List Ev × Bool :=
          match t.guard with
          | none => (m, [], true)
          | some g => ((applyGuard m g).1, [Ev.guard], (applyGuard m g).2)
        let m1 := gr.1
        if gr.2.2 = false then
          -- m_current_state = current_state; m_nesting = false; return;
          .done ⟨{ m1 with m_current_state := current_state,
                           m_nesting := false }, gr.2.1, .ok⟩
        else
          -- if ((tr != nullptr) && (tr->action != nullptr))
          --     (this->*tr->action)();
          let ar : StateMachine D × List Ev :=
            match t.action with
            | none => (m1, [])
            | some a => (applyCb m1 a, [Ev.action])
          let m2 := ar.1
          match cst.onevent with
          | some oe =>
              -- (this->*cst.onevent)(); return;
              -- note: m_nesting stays true on this return path (line 374)
              .done ⟨applyCb m2 oe,
                     gr.2.1 ++ ar.2 ++ [Ev.onevent current_state], .ok⟩
          | none =>
              if current_state ≠ m2.m_next_state then
                let lr : StateMachine D × List Ev :=
                  match cst.leaving with
                  | none => (m2, [])
                  | some l => (applyCb m2 l, [Ev.leaving current_state])
                let m3 := lr.1
                let er : StateMachine D × List Ev :=
                  match nst.entering with
                  | none => (m3, [])
                  | some e => (applyCb m3 e, [Ev.entering m3.m_next_state])
                -- m_nesting = false;  (line 404)
                .more { er.1 with m_nesting := false }
                      (gr.2.1 ++ ar.2 ++ lr.2 ++ er.2)
              else
                -- "Was previously in this mode: no actions to perform"
                .more { m2 with m_nesting := false } (gr.2.1 ++ ar.2)

/-- The do/while loop of lines 302-406: run the body; on fall-through,
re-enter while `m_nesting_state != CANNOT_HAPPEN`.  Fuel bounds the number
of iterations (the C++ loop may diverge). -/
def transitionLoop (cfg : Cfg) (tr : Option (Transition D)) :
    Nat → StateMachine D → TResult D
  | 0, m => ⟨m, [], .timeout⟩
  | fuel + 1, m =>
    match stepIter cfg tr m with
    | .done r => r
    | .more m1 evs =>
      if m1.m_nesting_state ≠ cfg.CANNOT_HAPPEN then
        let r := transitionLoop cfg tr fuel m1
        ⟨r.machine, evs ++ r.trace, r.status⟩
      else
        ⟨m1, evs, .ok⟩

/-- `StateMachine::transition(STATES_ID new_state, const Transition* tr)`
(lines 277-411): store the request, return at once when re-entered
(lines 295-300), otherwise run the do/while loop. -/
def transition (cfg : Cfg) (fuel : Nat) (m : StateMachine D)
    (new_state : StateId) (tr : Option (Transition D)) : TResult D :=
  let m := { m with m_nesting_state := new_state }
  if m.m_nesting then ⟨m, [], .ok⟩
  else transitionLoop cfg tr fuel m

/-- `StateMachine::transition(Transitions const& transitions)`
(lines 241-252): look the current state up in the sparse per-event table;
a found entry dispatches its destination with the entry as record, a miss
dispatches `IGNORING_EVENT` with no record. -/
def transitionTable (cfg : Cfg) (fuel : Nat) (m : StateMachine D)
    (transitions : StateId → Option (Transition D)) : TResult D :=
  match transitions m.m_current_state with
  | some t => transition cfg fuel m t.destination (some t)
  | none => transition cfg fuel m cfg.IGNORING_EVENT none

/-- `StateMachine::reset()` (lines 203-208). -/
def reset (cfg : Cfg) (m : StateMachine D) : StateMachine D :=
  { m with m_current_state := m.m_initial_state,
           m_nesting_state := cfg.CANNOT_HAPPEN,
           m_nesting := false }

/-- `StateMachine::state()` (lines 213-216). -/
def state (m : StateMachine D) : StateId :=
  m.m_current_state

/-!
Concrete instances used by witnesses, counterexamples and evaluations.
The configuration mirrors the motor-controller example of the header:
real states are 0, 1, 2 and the enumeration ends with
`IGNORING_EVENT = 3`, `CANNOT_HAPPEN = 4`, `MAX_STATES = 5`.
The FSM data is a `Nat`, updated by each callback so that runs record
which callbacks really executed.
-/

def cfgEx : Cfg := { MAX_STATES := 5, IGNORING_EVENT := 3, CANNOT_HAPPEN := 4 }

/-- A fresh machine over `Nat` data: the constructor (lines 193-198) sets
both state fields to the initial state; `m_next_state` is an uninitialized
scratch field in the C++ class and is always written before being read. -/
def mkNatM (st : StateId → State Nat) (init : StateId) : StateMachine Nat :=
  { m_states := st, m_current_state := init, m_initial_state := init,
    m_next_state := 0, m_nesting_state := cfgEx.CANNOT_HAPPEN,
    m_nesting := false, fsm := 0 }

/-- Always-true guard with a data mark and no internal requests. -/
def gW : GuardCb Nat := fun d => (d + 1, [], true)

/-- Always-false guard with a data mark and no internal requests. -/
def gFalseW : GuardCb Nat := fun d => (d + 1, [], false)

/-- Transition action callback: marks the data, requests nothing. -/
def aW : Cb Nat := fun d => (d + 10, [])

/-- Leaving callback: marks the data, requests nothing. -/
def lW : Cb Nat := fun d => (d + 100, [])

/-- Entering callback: marks the data, requests nothing. -/
def eW : Cb Nat := fun d => (d + 1000, [])

/-- On-event callback: marks the data, requests nothing. -/
def oeW : Cb Nat := fun d => (d + 5, [])

/-- Guard that allows its first evaluation and refuses its second one
(data-driven: true exactly when the mark is still 0). -/
def gC1cex : GuardCb Nat := fun d => (d + 1, [], decide (d = 0))

/-- Entering callback that performs the internal call transition(2). -/
def eC1cex : Cb Nat := fun d => (d, [2])

def stC1cex : StateId → State Nat := fun s =>
  if s = 1 then { entering := some eC1cex } else {}

def tC1cex : Transition Nat := { destination := 1, guard := some gC1cex }

/-- External dispatch 0 to 1 whose entering callback requests 2, under the
stateful guard `gC1cex`. -/
def runC1cex : TResult Nat := transition cfgEx 3 (mkNatM stC1cex 0) 1 (some tC1cex)

/-- Entering callback of state 1 performing the internal call
transition(2), used for the chained-transition scenarios. -/
def eC1w : Cb Nat := fun d => (d + 1000, [2])

def stC1w : StateId → State Nat := fun s =>
  if s = 0 then { leaving := some lW }
  else if s = 1 then { entering := some eC1w, leaving := some lW }
  else if s = 2 then { entering := some eW }
  else {}

def mC1w : StateMachine Nat := mkNatM stC1w 0

def tC1w : Transition Nat := { destination := 1, guard := some gW, action := some aW }

/-- Entering callback of state 1 performing the internal call
transition(2), with no data mark. -/
def eC2cex : Cb Nat := fun d => (d, [2])

def stC2cex : StateId → State Nat := fun s =>
  if s = 1 then { entering := some eC2cex } else {}

def tC2cex : Transition Nat := { destination := 1, guard := some gW, action := some aW }

/-- External dispatch 0 to 1 with guard and action; the entering callback
of state 1 requests 2. -/
def runC2cex : TResult Nat := transition cfgEx 3 (mkNatM stC2cex 0) 1 (some tC2cex)

def stC3bug : StateId → State Nat := fun s =>
  if s = 0 then { onevent := some oeW } else {}

/-- External dispatch 0 to 1 while state 0 has an on-event handler. -/
def runC3bug : TResult Nat :=
  transition cfgEx 1 (mkNatM stC3bug 0) 1 (some { destination := 1 })

/-- A second, independent external dispatch issued after `runC3bug`
returned. -/
def runC3bug2 : TResult Nat :=
  transition cfgEx 1 runC3bug.machine 2 (some { destination := 2 })

def mC4w : StateMachine Nat := mkNatM (fun _ => {}) 0

def tC4w : Transition Nat := { destination := 1, guard := some gFalseW }

def stC5w : StateId → State Nat := fun s =>
  if s = 0 then { leaving := some lW }
  else if s = 1 then { entering := some eW }
  else {}

def mC5w : StateMachine Nat := mkNatM stC5w 0

def tC5w : Transition Nat := { destination := 1, guard := some gW, action := some aW }

def stC6w : StateId → State Nat := fun s =>
  if s = 0 then { onevent := some oeW } else {}

def mC6w : StateMachine Nat := mkNatM stC6w 0

def tC6w : Transition Nat := { destination := 1, guard := some gW, action := some aW }

def mC7w : StateMachine Nat := mkNatM (fun _ => {}) 0

def mC8w : StateMachine Nat := mkNatM (fun _ => {}) 0

/-- External call `transition(1, nullptr)` on a machine outside any active
evaluation: the public entry point with its default null record. -/
def runC9bug : TResult Nat := transition cfgEx 1 (mkNatM (fun _ => {}) 0) 1 none

/-- Entering callback of state 1 performing the internal call
transition(CANNOT_HAPPEN). -/
def eC10w : Cb Nat := fun d => (d, [4])

def stC10w : StateId → State Nat := fun s =>
  if s = 1 then { entering := some eC10w } else {}

def mC10w : StateMachine Nat := mkNatM stC10w 0

def tC10w : Transition Nat := { destination := 1 }

/-!
Helper lemmas about the processing loop, shared by the claims below.
-/

/-- If an iteration of the do/while body starts with a pending state other
than `CANNOT_HAPPEN`, it cannot end in the forbidden-event abort: that
abort compares `m_next_state`, freshly copied from `m_nesting_state`,
against `CANNOT_HAPPEN`. -/
theorem stepIter_done_not_forbidden {D : Type} (cfg : Cfg)
    (tr : Option (Transition D)) (m : StateMachine D) (r : TResult D)
    (hne : m.m_nesting_state ≠ cfg.CANNOT_HAPPEN)
    (h : stepIter cfg tr m = StepOut.done r) :
    r.status ≠ Status.fatal_forbidden := by
  unfold stepIter at h
  dsimp only at h
  rw [if_neg hne] at h
  repeat' split at h
  all_goals cases h <;> simp

/-- If the processing loop ends in the forbidden-event abort, the pending
state it started from was `CANNOT_HAPPEN` itself: later iterations are
only entered under the while condition, which rules the sentinel out. -/
theorem transitionLoop_forbidden_pending {D : Type} (cfg : Cfg)
    (tr : Option (Transition D)) :
    ∀ (fuel : Nat) (m : StateMachine D),
      (transitionLoop cfg tr fuel m).status = Status.fatal_forbidden →
      m.m_nesting_state = cfg.CANNOT_HAPPEN := by
  intro fuel
  induction fuel with
  | zero =>
    intro m h
    simp [transitionLoop] at h
  | succ n ih =>
    intro m h
    by_cases hne : m.m_nesting_state = cfg.CANNOT_HAPPEN
    · exact hne
    · exfalso
      rw [transitionLoop] at h
      rcases hs : stepIter cfg tr m with r | ⟨m1, evs⟩
      · rw [hs] at h
        exact stepIter_done_not_forbidden cfg tr m r hne hs h
      · rw [hs] at h
        dsimp only at h
        by_cases hw : m1.m_nesting_state ≠ cfg.CANNOT_HAPPEN
        · rw [if_pos hw] at h
          exact hw (ih m1 h)
        · rw [if_neg hw] at h
          simp at h

/-!
Claim C1.
-/

/-- Claim C1, counterexample to the original statement: an external event
resolves 0 to 1 under a guard that allows its first evaluation; the
entering callback of state 1 requests a further transition to 2.  Because
the drain loop re-evaluates the guard of the original record for the
deferred request and the guard now refuses, the evaluation returns with
current state 1, not 2 as the claim demands. -/
theorem C1_counterexample :
    runC1cex.machine.m_current_state = 1
    ∧ runC1cex.machine.m_current_state ≠ 2
    ∧ runC1cex.status = Status.ok := by
  decide

/-- Claim C1 (amended): for a chain where an external event resolves A to B
and the entering callback of B requests a further transition to C, and
where the external record — which the drain loop re-applies to the
deferred request — has a guard that always allows and an action that
requests nothing, both transitions complete in request order: A to B fully
settles (guard, action, leaving of A, entering of B) before B to C begins
(guard, action, leaving of B, entering of C), the final current state is C,
and the deferred request is drained by one further loop iteration of the
same call, not by re-entering transition(). -/
theorem C1_amended_chain_in_order {D : Type} (cfg : Cfg) (fuel : Nat)
    (m : StateMachine D) (B C : StateId) (t : Transition D)
    (g : GuardCb D) (a lA eB lB eC : Cb D)
    (hn : m.m_nesting = false)
    (hB1 : B ≠ cfg.CANNOT_HAPPEN) (hB2 : B ≠ cfg.IGNORING_EVENT)
    (hB3 : B < cfg.MAX_STATES)
    (hC1 : C ≠ cfg.CANNOT_HAPPEN) (hC2 : C ≠ cfg.IGNORING_EVENT)
    (hC3 : C < cfg.MAX_STATES)
    (hAB : m.m_current_state ≠ B) (hBC : B ≠ C)
    (hAoe : (m.m_states m.m_current_state).onevent = none)
    (hAl : (m.m_states m.m_current_state).leaving = some lA)
    (hlAno : ∀ x, (lA x).2 = [])
    (hBoe : (m.m_states B).onevent = none)
    (hBe : (m.m_states B).entering = some eB)
    (hreqB : ∀ x, (eB x).2 = [C])
    (hBl : (m.m_states B).leaving = some lB)
    (hlBno : ∀ x, (lB x).2 = [])
    (hCe : (m.m_states C).entering = some eC)
    (heCno : ∀ x, (eC x).2 = [])
    (hg : t.guard = some g) (hgok : ∀ x, (g x).2 = ([], true))
    (ha : t.action = some a) (hano : ∀ x, (a x).2 = []) :
    (transition cfg (fuel + 2) m B (some t)).trace =
        [Ev.guard, Ev.action, Ev.leaving m.m_current_state, Ev.entering B,
         Ev.guard, Ev.action, Ev.leaving B, Ev.entering C]
    ∧ (transition cfg (fuel + 2) m B (some t)).machine.m_current_state = C
    ∧ (transition cfg (fuel + 2) m B (some t)).machine.m_nesting = false
    ∧ (transition cfg (fuel + 2) m B (some t)).status = Status.ok := by
  simp [transition, transitionLoop, stepIter, applyGuard, applyCb, nestedCall,
        hn, hg, ha, hgok, hano, hlAno, hlBno, heCno, hreqB,
        hAoe, hAl, hBoe, hBe, hBl, hCe, hAB, hBC, Ne.symm hAB, Ne.symm hBC,
        hB1, hB2, Nat.not_le.mpr hB3, hC1, hC2, Nat.not_le.mpr hC3]

/-- Claim C1, witness: the amended chain theorem applied to the concrete
motor-style machine `mC1w` (0 to 1 externally, entering of 1 requests 2). -/
theorem C1_witness :
    (transition cfgEx 2 mC1w 1 (some tC1w)).trace =
        [Ev.guard, Ev.action, Ev.leaving 0, Ev.entering 1,
         Ev.guard, Ev.action, Ev.leaving 1, Ev.entering 2]
    ∧ (transition cfgEx 2 mC1w 1 (some tC1w)).machine.m_current_state = 2
    ∧ (transition cfgEx 2 mC1w 1 (some tC1w)).machine.m_nesting = false
    ∧ (transition cfgEx 2 mC1w 1 (some tC1w)).status = Status.ok :=
  C1_amended_chain_in_order cfgEx 0 mC1w 1 2 tC1w gW aW lW eC1w lW eW rfl
    (by decide) (by decide) (by decide) (by decide) (by decide) (by decide)
    (by decide) (by decide) rfl rfl (fun x => rfl) rfl rfl (fun x => rfl)
    rfl (fun x => rfl) rfl (fun x => rfl) rfl (fun x => rfl) rfl (fun x => rfl)

/-!
Claim C2.
-/

/-- Claim C2, counterexample to the original statement: one external
dispatch 0 to 1 whose record has a guard and an action; the entering
callback of state 1 defers a request for 2.  The trace shows the guard
evaluated twice and the action run twice — once more for the drained
deferred request, with the original record — and the data mark 22 confirms
both re-runs mutated the FSM; the claim demands that neither be re-invoked
for the deferred request. -/
theorem C2_counterexample :
    runC2cex.trace = [Ev.guard, Ev.action, Ev.entering 1, Ev.guard, Ev.action]
    ∧ runC2cex.trace.count Ev.guard = 2
    ∧ runC2cex.trace.count Ev.action = 2
    ∧ runC2cex.machine.fsm = 22
    ∧ runC2cex.machine.m_current_state = 2 := by
  decide

/-- Claim C2 (amended): when the processing loop drains a transition
request deferred by the re-entrancy check, it processes it with the same
transition record the enclosing top-level call received: that record and
its guard and action are re-applied to the deferred request (the internal
self-call itself passes no record, but the loop never clears the record
between iterations), so the guard is evaluated again and the action run
again for the drained request. -/
theorem C2_amended_record_reused {D : Type} (cfg : Cfg) (fuel : Nat)
    (m : StateMachine D) (B C : StateId) (t : Transition D)
    (g : GuardCb D) (a eB : Cb D)
    (hn : m.m_nesting = false)
    (hB1 : B ≠ cfg.CANNOT_HAPPEN) (hB2 : B ≠ cfg.IGNORING_EVENT)
    (hB3 : B < cfg.MAX_STATES)
    (hC1 : C ≠ cfg.CANNOT_HAPPEN) (hC2 : C ≠ cfg.IGNORING_EVENT)
    (hC3 : C < cfg.MAX_STATES)
    (hAB : m.m_current_state ≠ B) (hBC : B ≠ C)
    (hAoe : (m.m_states m.m_current_state).onevent = none)
    (hAl : (m.m_states m.m_current_state).leaving = none)
    (hBoe : (m.m_states B).onevent = none)
    (hBe : (m.m_states B).entering = some eB)
    (hreqB : ∀ x, (eB x).2 = [C])
    (hBl : (m.m_states B).leaving = none)
    (hCe : (m.m_states C).entering = none)
    (hg : t.guard = some g) (hgok : ∀ x, (g x).2 = ([], true))
    (ha : t.action = some a) (hano : ∀ x, (a x).2 = []) :
    (transition cfg (fuel + 2) m B (some t)).trace =
        [Ev.guard, Ev.action, Ev.entering B, Ev.guard, Ev.action]
    ∧ (transition cfg (fuel + 2) m B (some t)).machine.m_current_state = C
    ∧ (transition cfg (fuel + 2) m B (some t)).status = Status.ok := by
  simp [transition, transitionLoop, stepIter, applyGuard, applyCb, nestedCall,
        hn, hg, ha, hgok, hano, hreqB,
        hAoe, hAl, hBoe, hBe, hBl, hCe, hAB, hBC, Ne.symm hAB, Ne.symm hBC,
        hB1, hB2, Nat.not_le.mpr hB3, hC1, hC2, Nat.not_le.mpr hC3]

/-- Claim C2, witness: the amended theorem applied to the concrete machine
behind `runC2cex`. -/
theorem C2_witness :
    (transition cfgEx 2 (mkNatM stC2cex 0) 1 (some tC2cex)).trace =
        [Ev.guard, Ev.action, Ev.entering 1, Ev.guard, Ev.action]
    ∧ (transition cfgEx 2 (mkNatM stC2cex 0) 1
        (some tC2cex)).machine.m_current_state = 2
    ∧ (transition cfgEx 2 (mkNatM stC2cex 0) 1 (some tC2cex)).status =
        Status.ok :=
  C2_amended_record_reused cfgEx 0 (mkNatM stC2cex 0) 1 2 tC2cex gW aW eC2cex
    rfl (by decide) (by decide) (by decide) (by decide) (by decide) (by decide)
    (by decide) (by decide) rfl rfl rfl rfl (fun x => rfl) rfl rfl rfl
    (fun x => rfl) rfl (fun x => rfl)

/-!
Claim C3.
-/

/-- Claim C3 (code bug): the claim says the re-entrancy flag is false on
every return path of a top-level transition() call, including the on-event
short-circuit return; but that return (line 374) is reached before
`m_nesting = false` (line 404), so the call returns with the flag still
set.  Evaluated at the failing input: dispatching 0 to 1 while state 0 has
an on-event handler returns normally with `m_nesting = true`; as a
consequence the next external dispatch is silently deferred and discarded —
its trace is empty and the state never changes. -/
theorem C3_code_bug_onevent_keeps_nesting :
    runC3bug.status = Status.ok
    ∧ runC3bug.trace = [Ev.onevent 0]
    ∧ runC3bug.machine.m_nesting = true
    ∧ runC3bug2.trace = []
    ∧ runC3bug2.status = Status.ok
    ∧ runC3bug2.machine.m_current_state = runC3bug.machine.m_current_state := by
  decide

/-!
Claim C4.
-/

/-- Claim C4 (confirmed): when the guard of the dispatched record refuses,
the transition is refused atomically: the current state after the call
equals the current state before it (the speculative move is rolled back),
and the only callback invoked during the evaluation is the guard itself —
no transition action, entering, leaving or on-event handler runs. -/
theorem C4_guard_refusal_rolls_back {D : Type} (cfg : Cfg) (fuel : Nat)
    (m : StateMachine D) (d : StateId) (t : Transition D) (g : GuardCb D)
    (hn : m.m_nesting = false)
    (hd1 : d ≠ cfg.CANNOT_HAPPEN) (hd2 : d ≠ cfg.IGNORING_EVENT)
    (hd3 : d < cfg.MAX_STATES)
    (hg : t.guard = some g) (hgr : (g m.fsm).2.2 = false) :
    (transition cfg (fuel + 1) m d (some t)).machine.m_current_state =
        m.m_current_state
    ∧ (transition cfg (fuel + 1) m d (some t)).trace = [Ev.guard]
    ∧ (transition cfg (fuel + 1) m d (some t)).status = Status.ok := by
  simp [transition, transitionLoop, stepIter, applyGuard, hn, hg, hgr,
        hd1, hd2, Nat.not_le.mpr hd3]

/-- Claim C4, witness: the rollback theorem applied to the concrete machine
`mC4w` with the always-false guard `gFalseW`. -/
theorem C4_witness :
    (transition cfgEx 1 mC4w 1 (some tC4w)).machine.m_current_state = 0
    ∧ (transition cfgEx 1 mC4w 1 (some tC4w)).trace = [Ev.guard]
    ∧ (transition cfgEx 1 mC4w 1 (some tC4w)).status = Status.ok :=
  C4_guard_refusal_rolls_back cfgEx 0 mC4w 1 tC4w gFalseW rfl (by decide)
    (by decide) (by decide) rfl rfl

/-!
Claim C5.
-/

/-- Claim C5 (confirmed): for a genuine state change from A to a different
state B where A has no on-event handler, the callbacks run in exactly this
order, each exactly once: guard, transition action, the leaving handler of
A, the entering handler of B; and the current state afterwards is B. -/
theorem C5_entry_exit_order {D : Type} (cfg : Cfg) (fuel : Nat)
    (m : StateMachine D) (B : StateId) (t : Transition D)
    (g : GuardCb D) (a l e : Cb D)
    (hn : m.m_nesting = false)
    (hB1 : B ≠ cfg.CANNOT_HAPPEN) (hB2 : B ≠ cfg.IGNORING_EVENT)
    (hB3 : B < cfg.MAX_STATES)
    (hAB : m.m_current_state ≠ B)
    (hAoe : (m.m_states m.m_current_state).onevent = none)
    (hAl : (m.m_states m.m_current_state).leaving = some l)
    (hBe : (m.m_states B).entering = some e)
    (hg : t.guard = some g) (hgok : ∀ x, (g x).2 = ([], true))
    (ha : t.action = some a) (hano : ∀ x, (a x).2 = [])
    (hlno : ∀ x, (l x).2 = []) (heno : ∀ x, (e x).2 = []) :
    (transition cfg (fuel + 1) m B (some t)).trace =
        [Ev.guard, Ev.action, Ev.leaving m.m_current_state, Ev.entering B]
    ∧ (transition cfg (fuel + 1) m B (some t)).machine.m_current_state = B
    ∧ (transition cfg (fuel + 1) m B (some t)).status = Status.ok := by
  simp [transition, transitionLoop, stepIter, applyGuard, applyCb, hn, hg, ha,
        hgok, hano, hlno, heno, hAoe, hAl, hBe, hAB, hB1, hB2,
        Nat.not_le.mpr hB3, Ne.symm hAB]

/-- Claim C5, witness: the ordering theorem applied to the concrete machine
`mC5w` (0 to 1, all four callbacks configured). -/
theorem C5_witness :
    (transition cfgEx 1 mC5w 1 (some tC5w)).trace =
        [Ev.guard, Ev.action, Ev.leaving 0, Ev.entering 1]
    ∧ (transition cfgEx 1 mC5w 1 (some tC5w)).machine.m_current_state = 1
    ∧ (transition cfgEx 1 mC5w 1 (some tC5w)).status = Status.ok :=
  C5_entry_exit_order cfgEx 0 mC5w 1 tC5w gW aW lW eW rfl (by decide)
    (by decide) (by decide) (by decide) rfl rfl rfl rfl (fun x => rfl) rfl
    (fun x => rfl) (fun x => rfl) (fun x => rfl)

/-!
Claim C6.
-/

/-- Claim C6 (confirmed): when the state being left has an on-event handler
and the guard allows the transition, the callbacks run in exactly this
order: guard, transition action, the on-event handler of the left state —
and neither the leaving handler of that state nor the entering handler of
the destination runs, regardless of whether the destination differs from
the left state (no hypothesis relates `d` to the current state). -/
theorem C6_onevent_short_circuit {D : Type} (cfg : Cfg) (fuel : Nat)
    (m : StateMachine D) (d : StateId) (t : Transition D)
    (g : GuardCb D) (a oe : Cb D)
    (hn : m.m_nesting = false)
    (hd1 : d ≠ cfg.CANNOT_HAPPEN) (hd2 : d ≠ cfg.IGNORING_EVENT)
    (hd3 : d < cfg.MAX_STATES)
    (hoe : (m.m_states m.m_current_state).onevent = some oe)
    (hg : t.guard = some g) (hgr : (g m.fsm).2.2 = true)
    (ha : t.action = some a) :
    (transition cfg (fuel + 1) m d (some t)).trace =
        [Ev.guard, Ev.action, Ev.onevent m.m_current_state]
    ∧ (transition cfg (fuel + 1) m d (some t)).status = Status.ok := by
  simp [transition, transitionLoop, stepIter, applyGuard, applyCb, hn, hg, ha,
        hgr, hoe, hd1, hd2, Nat.not_le.mpr hd3]

/-- Claim C6, witness: the short-circuit theorem applied to the concrete
machine `mC6w` (state 0 has an on-event handler; the event targets 1). -/
theorem C6_witness :
    (transition cfgEx 1 mC6w 1 (some tC6w)).trace =
        [Ev.guard, Ev.action, Ev.onevent 0]
    ∧ (transition cfgEx 1 mC6w 1 (some tC6w)).status = Status.ok :=
  C6_onevent_short_circuit cfgEx 0 mC6w 1 tC6w gW aW oeW rfl (by decide)
    (by decide) (by decide) rfl rfl rfl rfl

/-!
Claim C7.
-/

/-- Claim C7 (confirmed): an event resolving to `IGNORING_EVENT` is a
no-op: the current state is unchanged and no callback of any kind is
invoked (the trace is empty), for any record pointer; and an event with no
matching table entry is resolved by the table overload to exactly the
dispatch of `IGNORING_EVENT` with no record. -/
theorem C7_ignore_is_noop {D : Type} (cfg : Cfg) (fuel : Nat)
    (m : StateMachine D) (tr : Option (Transition D))
    (table : StateId → Option (Transition D))
    (hIC : cfg.IGNORING_EVENT ≠ cfg.CANNOT_HAPPEN)
    (hn : m.m_nesting = false)
    (htable : table m.m_current_state = none) :
    (transition cfg (fuel + 1) m cfg.IGNORING_EVENT tr).machine.m_current_state
        = m.m_current_state
    ∧ (transition cfg (fuel + 1) m cfg.IGNORING_EVENT tr).trace = []
    ∧ (transition cfg (fuel + 1) m cfg.IGNORING_EVENT tr).status = Status.ok
    ∧ transitionTable cfg (fuel + 1) m table =
        transition cfg (fuel + 1) m cfg.IGNORING_EVENT none := by
  simp [transition, transitionLoop, transitionTable, stepIter, hn, hIC, htable]

/-- Claim C7, witness: the no-op theorem applied to the concrete machine
`mC7w` with the everywhere-empty transition table. -/
theorem C7_witness :
    (transition cfgEx 1 mC7w 3 none).machine.m_current_state = 0
    ∧ (transition cfgEx 1 mC7w 3 none).trace = []
    ∧ (transition cfgEx 1 mC7w 3 none).status = Status.ok
    ∧ transitionTable cfgEx 1 mC7w (fun _ => none) =
        transition cfgEx 1 mC7w 3 none :=
  C7_ignore_is_noop cfgEx 0 mC7w none (fun _ => none) (by decide) rfl rfl

/-!
Claim C8.
-/

/-- Claim C8 (confirmed): an externally dispatched event whose resolved
destination is `CANNOT_HAPPEN`, or at least `MAX_STATES`, terminates the
evaluation fatally (one of the two exit(EXIT_FAILURE) paths), with no
callback invoked and the current state untouched at the moment of
termination.  The hypothesis `IGNORING_EVENT < MAX_STATES` states the
mandated enumeration layout, under which no out-of-range value can collide
with the ignore sentinel. -/
theorem C8_fatal_on_forbidden_or_invalid {D : Type} (cfg : Cfg) (fuel : Nat)
    (m : StateMachine D) (d : StateId) (tr : Option (Transition D))
    (hIM : cfg.IGNORING_EVENT < cfg.MAX_STATES)
    (hn : m.m_nesting = false)
    (hd : d = cfg.CANNOT_HAPPEN ∨ cfg.MAX_STATES ≤ d) :
    ((transition cfg (fuel + 1) m d tr).status = Status.fatal_forbidden
      ∨ (transition cfg (fuel + 1) m d tr).status = Status.fatal_unknown)
    ∧ (transition cfg (fuel + 1) m d tr).trace = []
    ∧ (transition cfg (fuel + 1) m d tr).machine.m_current_state =
        m.m_current_state := by
  rcases hd with hd | hd
  · subst hd
    simp [transition, transitionLoop, stepIter, hn]
  · by_cases hC : d = cfg.CANNOT_HAPPEN
    · subst hC
      simp [transition, transitionLoop, stepIter, hn]
    · have hI : d ≠ cfg.IGNORING_EVENT := by
        intro hEq
        rw [hEq] at hd
        exact Nat.not_le.mpr hIM hd
      simp [transition, transitionLoop, stepIter, hn, hC, hI, hd]

/-- Claim C8, witness: the fatal theorem applied to the concrete machine
`mC8w` with the forbidden sentinel 4 as destination. -/
theorem C8_witness :
    ((transition cfgEx 1 mC8w 4 none).status = Status.fatal_forbidden
      ∨ (transition cfgEx 1 mC8w 4 none).status = Status.fatal_unknown)
    ∧ (transition cfgEx 1 mC8w 4 none).trace = []
    ∧ (transition cfgEx 1 mC8w 4 none).machine.m_current_state = 0 :=
  C8_fatal_on_forbidden_or_invalid cfgEx 0 mC8w 4 none (by decide) rfl
    (Or.inl rfl)

/-!
Claim C9.
-/

/-- Claim C9 (code bug): the claim says a top-level call with a real
destination and no transition record treats the missing guard as
always-true and completes normally without dereferencing the absent
record; but line 339 evaluates `tr->guard` before any null check, so the
call dereferences the null record instead (the null check exists only for
the action, line 360).  Evaluated at the failing input: `transition(1,
nullptr)` on a fresh machine reaches the dereference with no callback ever
invoked. -/
theorem C9_code_bug_null_record_guard_deref :
    runC9bug.status = Status.null_deref ∧ runC9bug.trace = [] := by
  decide

/-!
Claim C10.
-/

/-- Claim C10 (confirmed): an internal transition request for
`CANNOT_HAPPEN` made from within a callback during an active evaluation is
indistinguishable from the neutral no-pending-request marker: the loop
terminates silently with the evaluation otherwise complete (here the
scenario A to B whose entering callback requests `CANNOT_HAPPEN`: the call
returns ok, current state B, pending field neutral); and, in general, the
forbidden-event abort fires only when the initial, non-nested call itself
supplied `CANNOT_HAPPEN`: any evaluation ending in that abort was a
non-nested call whose argument was the sentinel. -/
theorem C10_internal_cannot_happen_is_silent {D : Type} (cfg : Cfg)
    (fuel : Nat) (m : StateMachine D) (B : StateId) (t : Transition D)
    (eB : Cb D)
    (hn : m.m_nesting = false)
    (hB1 : B ≠ cfg.CANNOT_HAPPEN) (hB2 : B ≠ cfg.IGNORING_EVENT)
    (hB3 : B < cfg.MAX_STATES)
    (hAB : m.m_current_state ≠ B)
    (hAoe : (m.m_states m.m_current_state).onevent = none)
    (hAl : (m.m_states m.m_current_state).leaving = none)
    (hBe : (m.m_states B).entering = some eB)
    (hreq : ∀ x, (eB x).2 = [cfg.CANNOT_HAPPEN])
    (hg : t.guard = none) (ha : t.action = none) :
    (transition cfg (fuel + 1) m B (some t)).status = Status.ok
    ∧ (transition cfg (fuel + 1) m B (some t)).machine.m_current_state = B
    ∧ (transition cfg (fuel + 1) m B (some t)).machine.m_nesting_state =
        cfg.CANNOT_HAPPEN
    ∧ (∀ (fuel2 : Nat) (m2 : StateMachine D) (ns : StateId)
          (tr2 : Option (Transition D)),
        (transition cfg fuel2 m2 ns tr2).status = Status.fatal_forbidden →
        m2.m_nesting = false ∧ ns = cfg.CANNOT_HAPPEN) := by
  refine ⟨?_, ?_, ?_, ?_⟩
  · simp [transition, transitionLoop, stepIter, applyCb, nestedCall, hn, hg,
          ha, hAoe, hAl, hBe, hreq, hAB, hB1, hB2, Nat.not_le.mpr hB3]
  · simp [transition, transitionLoop, stepIter, applyCb, nestedCall, hn, hg,
          ha, hAoe, hAl, hBe, hreq, hAB, hB1, hB2, Nat.not_le.mpr hB3]
  · simp [transition, transitionLoop, stepIter, applyCb, nestedCall, hn, hg,
          ha, hAoe, hAl, hBe, hreq, hAB, hB1, hB2, Nat.not_le.mpr hB3]
  · intro fuel2 m2 ns tr2 h
    unfold transition at h
    by_cases hn2 : m2.m_nesting
    · rw [if_pos] at h
      · simp at h
      · simpa using hn2
    · rw [if_neg] at h
      · have := transitionLoop_forbidden_pending cfg tr2 fuel2 _ h
        simp at this
        simp [hn2, this]
      · simpa using hn2

/-- Claim C10, witness: the theorem applied to the concrete machine `mC10w`
whose entering callback of state 1 internally requests `CANNOT_HAPPEN`. -/
theorem C10_witness :
    (transition cfgEx 1 mC10w 1 (some tC10w)).status = Status.ok
    ∧ (transition cfgEx 1 mC10w 1 (some tC10w)).machine.m_current_state = 1
    ∧ (transition cfgEx 1 mC10w 1 (some tC10w)).machine.m_nesting_state = 4 :=
  ⟨(C10_internal_cannot_happen_is_silent cfgEx 0 mC10w 1 tC10w eC10w rfl
      (by decide) (by decide) (by decide) (by decide) rfl rfl rfl
      (fun x => rfl) rfl rfl).1,
   (C10_internal_cannot_happen_is_silent cfgEx 0 mC10w 1 tC10w eC10w rfl
      (by decide) (by decide) (by decide) (by decide) rfl rfl rfl
      (fun x => rfl) rfl rfl).2.1,
   (C10_internal_cannot_happen_is_silent cfgEx 0 mC10w 1 tC10w eC10w rfl
      (by decide) (by decide) (by decide) (by decide) rfl rfl rfl
      (fun x => rfl) rfl rfl).2.2.1⟩

end Statecharts
